import Mathlib

/-!
Verification of the product-dashboard pipeline (src/main.py).

The script loads a CSV of instrument-run measurements, derives an
`Instrument` column from the first four characters of `assayID`, coerces
`chipBatch` to integers (dropping unparsable rows), aggregates
`sample_loading_time` per group (pandas `groupby(...).agg(...)`), and
writes one HTML report.

Embedding conventions:
* A raw CSV row is `RawRow`; the coercion `pd.to_numeric(_, errors='coerce')`
  is a function `String → Option ℚ` (`none` models NaN).  A concrete parser
  `toNumeric` for decimal numerals is provided for round-trip claims; most
  theorems quantify over the coercion function.
* Floating-point numbers are modelled by exact rationals.  pandas'
  `std` is the square root of the variance it computes; we work with the
  variance (`var` fields), so a claimed standard deviation `s` corresponds
  to a variance `s * s`.  A NaN statistic (pandas `std` of a one-row group
  with its default `ddof=1`) is modelled by `none`.
* `astype(int)` truncates toward zero (`truncQ`).
-/

/-- One raw input row, as read by `pd.read_csv` (src/main.py line 15).
`chipBatch` is the raw cell text; `sample_loading_time` is already numeric. -/
structure RawRow where
  assayID : String
  chipLot : String
  chipBatch : String
  sample_loading_time : ℚ
deriving DecidableEq, Repr

/-- One cleaned row, after lines 18-26 of src/main.py: `Instrument` derived,
`chipBatch` coerced and truncated to an integer. -/
structure Row where
  assayID : String
  chipLot : String
  chipBatch : ℤ
  Instrument : String
  sample_loading_time : ℚ
deriving DecidableEq, Repr

/-- Truncation toward zero, the behavior of `astype(int)` on floats
(src/main.py line 26): floor for nonnegative values, ceiling for negative. -/
def truncQ (q : ℚ) : ℤ := if 0 ≤ q then ⌊q⌋ else ⌈q⌉

/-- Cleaning of a single row (src/main.py lines 18-26): cast `assayID` to
string (it already is one in the embedding), take its first four characters
as `Instrument`, coerce `chipBatch` with `parse` and drop the row (`none`)
when coercion fails, truncate the coerced value to an integer. -/
def cleanRow (parse : String → Option ℚ) (r : RawRow) : Option Row :=
  match parse r.chipBatch with
  | none => none
  | some q => some
      { assayID := r.assayID
        chipLot := r.chipLot
        chipBatch := truncQ q
        Instrument := String.mk (r.assayID.data.take 4)
        sample_loading_time := r.sample_loading_time }

/-- The Loader/Cleaner: `pd.to_numeric(..., errors='coerce')`, `dropna`,
`astype(int)` applied row-wise over the whole frame (src/main.py lines 15-26). -/
def clean (parse : String → Option ℚ) (rows : List RawRow) : List Row :=
  rows.filterMap (cleanRow parse)

/-- Sum of a list of rationals, as a left fold (pandas summation). -/
def listSum (l : List ℚ) : ℚ := l.foldl (· + ·) 0

/-- pandas `mean` of a column: sum divided by count; NaN (`none`) on an
empty column. -/
def listMean (l : List ℚ) : Option ℚ :=
  if l.isEmpty then none else some (listSum l / (l.length : ℚ))

/-- The square of pandas `std` with its default `ddof=1`: sum of squared
deviations from the mean divided by `count - 1`; NaN (`none`) when the
column has fewer than two entries. -/
def listSampleVar (l : List ℚ) : Option ℚ :=
  match listMean l with
  | none => none
  | some m =>
      if l.length ≤ 1 then none
      else some (listSum (l.map (fun x => (x - m) * (x - m))) / ((l.length : ℚ) - 1))

/-- pandas `min` of a column (`none` on an empty column). -/
def listMin : List ℚ → Option ℚ
  | [] => none
  | x :: xs => some (xs.foldl min x)

/-- pandas `max` of a column (`none` on an empty column). -/
def listMax : List ℚ → Option ℚ
  | [] => none
  | x :: xs => some (xs.foldl max x)

/-- The per-group aggregate computed by `create_radar_plot`
(src/main.py lines 85-87): mean, std (represented by its square `var`),
min, max and count of `sample_loading_time`. -/
structure BatchStats where
  mean : Option ℚ
  var : Option ℚ
  min : Option ℚ
  max : Option ℚ
  count : ℕ
deriving DecidableEq, Repr

/-- Aggregate one group's column of loading times. -/
def aggAll (l : List ℚ) : BatchStats :=
  { mean := listMean l
    var := listSampleVar l
    min := listMin l
    max := listMax l
    count := l.length }

/-- `data[data['chipBatch'].isin([batch1, batch2])]` (src/main.py line 82). -/
def radarFilter (data : List Row) (b1 b2 : ℤ) : List Row :=
  data.filter (fun r => decide (r.chipBatch = b1 ∨ r.chipBatch = b2))

/-- The statistics `create_radar_plot` obtains for the group of batch `b`
(src/main.py lines 82-95): filter to the two selected batches, group by
`chipBatch`, aggregate `sample_loading_time`, and read off batch `b`'s row. -/
def radarStats (data : List Row) (b1 b2 b : ℤ) : BatchStats :=
  aggAll (((radarFilter data b1 b2).filter
    (fun r => decide (r.chipBatch = b))).map (·.sample_loading_time))

/-- Mean/std pair computed per group by `create_bar_plot`
(src/main.py line 129). -/
structure MeanStd where
  mean : Option ℚ
  var : Option ℚ
deriving DecidableEq, Repr

/-- The grouping column selected by `create_bar_plot`'s `group_type`
argument (src/main.py line 126). -/
inductive GroupKey
  | chipLot
  | chipBatch
  | instrument
deriving DecidableEq, Repr

/-- Value of the grouping column in a row: strings for `chipLot` and
`Instrument`, integers for `chipBatch`. -/
def keyVal : GroupKey → Row → String ⊕ ℤ
  | .chipLot, r => .inl r.chipLot
  | .chipBatch, r => .inr r.chipBatch
  | .instrument, r => .inl r.Instrument

/-- `data[data[group_type].isin([value1, value2])]` (src/main.py line 127). -/
def barFilter (data : List Row) (k : GroupKey) (v1 v2 : String ⊕ ℤ) : List Row :=
  data.filter (fun r => decide (keyVal k r = v1 ∨ keyVal k r = v2))

/-- The statistics `create_bar_plot` computes for the group of value `v`
(src/main.py lines 127-129). -/
def barStats (data : List Row) (k : GroupKey) (v1 v2 v : String ⊕ ℤ) : MeanStd :=
  { mean := listMean (((barFilter data k v1 v2).filter
      (fun r => decide (keyVal k r = v))).map (·.sample_loading_time))
    var := listSampleVar (((barFilter data k v1 v2).filter
      (fun r => decide (keyVal k r = v))).map (·.sample_loading_time)) }

/-- Loading times of the rows of `data` whose `chipBatch` is `b` (the group
of `b`, selected directly from the dataset). -/
def groupTimes (data : List Row) (b : ℤ) : List ℚ :=
  (data.filter (fun r => decide (r.chipBatch = b))).map (·.sample_loading_time)

/-- Loading times of the rows of `data` whose grouping value under `k` is
`v`. -/
def groupTimesK (data : List Row) (k : GroupKey) (v : String ⊕ ℤ) : List ℚ :=
  (data.filter (fun r => decide (keyVal k r = v))).map (·.sample_loading_time)

/-- Following the spec's words only (for comparison with the source):
"population standard deviation (divide sum-of-squared-deviations by count,
not count-1)" — this is the square of that standard deviation. -/
def popVarSpec (l : List ℚ) : Option ℚ :=
  match listMean l with
  | none => none
  | some m => some (listSum (l.map (fun x => (x - m) * (x - m))) / (l.length : ℚ))

/-- The spec's example dataset (§8): batch 7 with times 10.0 and 20.0,
batch 8 with one row of time 30.0, already cleaned. -/
def exData : List Row :=
  [ { assayID := "AB12-3", chipLot := "L1", chipBatch := 7,
      Instrument := "AB12", sample_loading_time := 10 }
  , { assayID := "AB12-4", chipLot := "L1", chipBatch := 7,
      Instrument := "AB12", sample_loading_time := 20 }
  , { assayID := "CD99-1", chipLot := "L1", chipBatch := 8,
      Instrument := "CD99", sample_loading_time := 30 } ]

/-- The spec's example input rows (§8): two parsable batch-7 rows and one
row whose `chipBatch` is the unparsable string "bad". -/
def exRawRows : List RawRow :=
  [ { assayID := "AB12-3", chipLot := "L1", chipBatch := "7", sample_loading_time := 10 }
  , { assayID := "AB12-4", chipLot := "L1", chipBatch := "7", sample_loading_time := 20 }
  , { assayID := "CD99-1", chipLot := "L1", chipBatch := "bad", sample_loading_time := 5 } ]

/-- Is `c` one of the ten decimal digit characters? -/
def isDigitChar (c : Char) : Bool := 48 ≤ c.toNat && c.toNat ≤ 57

/-- Value of a most-significant-first digit string. -/
def digitsVal (cs : List Char) : ℕ :=
  cs.foldl (fun a c => a * 10 + (c.toNat - 48)) 0

/-- Parse a nonempty all-digit character list as a natural number. -/
def parseDigits (cs : List Char) : Option ℕ :=
  if cs ≠ [] ∧ cs.all isDigitChar then some (digitsVal cs) else none

/-- Parse an unsigned decimal numeral, optionally with a fractional part
(`"123"` or `"123.45"`). -/
def parseDec (cs : List Char) : Option ℚ :=
  match cs.dropWhile (fun c => decide (c ≠ '.')) with
  | [] => (parseDigits cs).map (fun n => (n : ℚ))
  | _ :: frac =>
      match parseDigits (cs.takeWhile (fun c => decide (c ≠ '.'))), parseDigits frac with
      | some i, some f => some ((i : ℚ) + (f : ℚ) / (10 : ℚ) ^ frac.length)
      | _, _ => none

/-- The numeric coercion `pd.to_numeric(_, errors='coerce')` of
src/main.py line 24, for standard optionally-signed decimal numerals:
`none` models the NaN produced when coercion fails. -/
def toNumeric (s : String) : Option ℚ :=
  match s.data with
  | [] => none
  | c :: cs => if c = '-' then (parseDec cs).map (fun q => -q) else parseDec (c :: cs)

/-- Decimal digit characters of `n`, most significant first. -/
def natSerial (n : ℕ) : List Char :=
  if n = 0 then ['0'] else ((Nat.digits 10 n).map Nat.digitChar).reverse

/-- Decimal rendering of an integer, as in CSV serialization. -/
def intSerial (n : ℤ) : List Char :=
  if n < 0 then '-' :: natSerial n.natAbs else natSerial n.natAbs

/-- Re-serialization of a cleaned row back to a raw CSV row (the spec's
round-trip, §8: the cleaned Dataset written out again): `chipBatch` is
rendered as its decimal numeral, the other fields are carried over. -/
def serializeRow (r : Row) : RawRow :=
  { assayID := r.assayID
    chipLot := r.chipLot
    chipBatch := String.mk (intSerial r.chipBatch)
    sample_loading_time := r.sample_loading_time }

/-- `sorted(df['chipBatch'].unique())` (src/main.py line 156). -/
def uniqueBatches (data : List Row) : List ℤ :=
  ((data.map (·.chipBatch)).dedup).mergeSort (fun a b => decide (a ≤ b))

/-- `sorted(df['Instrument'].unique())` (src/main.py line 157). -/
def uniqueInstruments (data : List Row) : List String :=
  ((data.map (·.Instrument)).dedup).mergeSort (fun a b => decide (a ≤ b))

/-- The file system visible to the script: the input CSV, the logo asset,
and the output `index.html` (its content before the run, if any). -/
structure FileSys where
  csvFile : Option (List RawRow)
  logoFile : Option (List ℕ)
  outFile : Option String
deriving DecidableEq

/-- Result of a run: normal exit, or abort by an uncaught exception —
an I/O error from `pd.read_csv`/`open` (src/main.py lines 15, 30), or an
IndexError from `unique_chip_batches[0/1]` / `unique_instruments[0/1]`
(src/main.py lines 160-164, 218-222).  Each outcome carries the file
system as the run leaves it. -/
inductive RunOutcome
  | ok (fs : FileSys)
  | fileError (fs : FileSys)
  | indexError (fs : FileSys)
deriving DecidableEq

/-- Final file-system state of an outcome. -/
def RunOutcome.finalFs : RunOutcome → FileSys
  | .ok fs => fs
  | .fileError fs => fs
  | .indexError fs => fs

/-- The whole script as a state transformer (src/main.py top to bottom):
read the CSV (line 15; missing file aborts with an I/O error), read the
logo (line 30; likewise), clean (lines 18-26), compute the sorted unique
batch and instrument lists (lines 156-157), index their first two entries
for the initial comparison plots (lines 160-164 and 218-222; fewer than
two entries aborts with an IndexError), and only then write the output
HTML (line 494).  `render` abstracts the chart construction and HTML
templating, out of scope per spec §1. -/
def runScript (parse : String → Option ℚ) (render : List Row → List ℕ → String)
    (fs : FileSys) : RunOutcome :=
  match fs.csvFile with
  | none => .fileError fs
  | some rows =>
      match fs.logoFile with
      | none => .fileError fs
      | some logo =>
          match (uniqueBatches (clean parse rows))[0]?,
              (uniqueBatches (clean parse rows))[1]? with
          | some _, some _ =>
              match (uniqueInstruments (clean parse rows))[0]?,
                  (uniqueInstruments (clean parse rows))[1]? with
              | some _, some _ =>
                  .ok { fs with outFile := some (render (clean parse rows) logo) }
              | _, _ => .indexError fs
          | _, _ => .indexError fs

/-- The environment of the plot helpers: the module-level frame `df`.
`create_radar_plot` and `create_bar_plot` (src/main.py lines 80-148) only
bind new local frames (`filtered_data`, `stats`) from it; passing the
environment through makes that explicit. -/
structure Env where
  df : List Row
deriving DecidableEq

/-- A call to `create_radar_plot(df, batch1, batch2)`: returns the
environment as the call leaves it together with the two per-batch
aggregates placed on the chart. -/
def createRadarPlotCall (env : Env) (b1 b2 : ℤ) : Env × (BatchStats × BatchStats) :=
  let data := env.df
  let s1 := radarStats data b1 b2 b1
  let s2 := radarStats data b1 b2 b2
  ({ df := data }, (s1, s2))

/-- A call to `create_bar_plot(df, group_type, value1, value2)`: returns
the environment as the call leaves it together with the two per-group
aggregates placed on the chart. -/
def createBarPlotCall (env : Env) (k : GroupKey) (v1 v2 : String ⊕ ℤ) :
    Env × (MeanStd × MeanStd) :=
  let data := env.df
  let s1 := barStats data k v1 v2 v1
  let s2 := barStats data k v1 v2 v2
  ({ df := data }, (s1, s2))

/-! ### Helper lemmas about the aggregation primitives -/

lemma listSum_eq_sum (l : List ℚ) : listSum l = l.sum := by
  have h : ∀ (l : List ℚ) (a : ℚ), l.foldl (· + ·) a = a + l.sum := by
    intro l
    induction l with
    | nil => intro a; simp
    | cons x xs ih =>
        intro a
        rw [List.foldl_cons, ih, List.sum_cons, add_assoc]
  simpa [listSum] using h l 0

lemma listMin_eq_min? (l : List ℚ) : listMin l = l.min? := by
  cases l <;> rfl

lemma listMax_eq_max? (l : List ℚ) : listMax l = l.max? := by
  cases l <;> rfl

lemma listMin_char (l : List ℚ) (m : ℚ) :
    listMin l = some m ↔ m ∈ l ∧ ∀ x ∈ l, m ≤ x := by
  haveI : Std.Antisymm (fun x1 x2 : ℚ => x1 ≤ x2) := ⟨fun h h' => le_antisymm h h'⟩
  rw [listMin_eq_min?]
  exact List.min?_eq_some_iff (fun _ => le_refl _) (fun a b => min_choice a b)
    (fun a b c => le_min_iff)

lemma listMax_char (l : List ℚ) (m : ℚ) :
    listMax l = some m ↔ m ∈ l ∧ ∀ x ∈ l, x ≤ m := by
  haveI : Std.Antisymm (fun x1 x2 : ℚ => x1 ≤ x2) := ⟨fun h h' => le_antisymm h h'⟩
  rw [listMax_eq_max?]
  exact List.max?_eq_some_iff (fun _ => le_refl _) (fun a b => max_choice a b)
    (fun a b c => max_le_iff)

lemma listSum_perm {l l' : List ℚ} (h : l.Perm l') : listSum l = listSum l' := by
  rw [listSum_eq_sum, listSum_eq_sum]
  exact h.sum_eq

lemma listMean_perm {l l' : List ℚ} (h : l.Perm l') : listMean l = listMean l' := by
  have hemp : l.isEmpty = l'.isEmpty := by
    cases l <;> cases l' <;> simp_all
  unfold listMean
  rw [hemp, listSum_perm h, h.length_eq]

lemma listSampleVar_perm {l l' : List ℚ} (h : l.Perm l') :
    listSampleVar l = listSampleVar l' := by
  unfold listSampleVar
  rw [listMean_perm h]
  cases listMean l' with
  | none => rfl
  | some m =>
      simp only
      rw [h.length_eq, listSum_perm (h.map _)]

lemma listMin_perm {l l' : List ℚ} (h : l.Perm l') : listMin l = listMin l' := by
  cases hm : listMin l' with
  | none =>
      rw [listMin_eq_min?] at hm ⊢
      rw [List.min?_eq_none_iff] at hm
      subst hm
      rw [List.min?_eq_none_iff]
      exact List.perm_nil.mp h
  | some m =>
      rw [listMin_char] at hm ⊢
      exact ⟨h.mem_iff.mpr hm.1, fun x hx => hm.2 x (h.mem_iff.mp hx)⟩

lemma listMax_perm {l l' : List ℚ} (h : l.Perm l') : listMax l = listMax l' := by
  cases hm : listMax l' with
  | none =>
      rw [listMax_eq_max?] at hm ⊢
      rw [List.max?_eq_none_iff] at hm
      subst hm
      rw [List.max?_eq_none_iff]
      exact List.perm_nil.mp h
  | some m =>
      rw [listMax_char] at hm ⊢
      exact ⟨h.mem_iff.mpr hm.1, fun x hx => hm.2 x (h.mem_iff.mp hx)⟩

lemma aggAll_perm {l l' : List ℚ} (h : l.Perm l') : aggAll l = aggAll l' := by
  unfold aggAll
  rw [listMean_perm h, listSampleVar_perm h, listMin_perm h, listMax_perm h, h.length_eq]

/-- Filtering to the two selected batches and then to batch `b` selects
exactly the rows of batch `b`, provided `b` is one of the two. -/
lemma radar_group_collapse (data : List Row) (b1 b2 b : ℤ) (hb : b = b1 ∨ b = b2) :
    (radarFilter data b1 b2).filter (fun r => decide (r.chipBatch = b)) =
      data.filter (fun r => decide (r.chipBatch = b)) := by
  unfold radarFilter
  rw [List.filter_filter]
  apply List.filter_congr
  intro r _
  rcases hb with rfl | rfl
  · by_cases hr : r.chipBatch = b <;> simp [hr]
  · by_cases hr : r.chipBatch = b <;> simp [hr]

lemma bar_group_collapse (data : List Row) (k : GroupKey) (v1 v2 v : String ⊕ ℤ)
    (hv : v = v1 ∨ v = v2) :
    (barFilter data k v1 v2).filter (fun r => decide (keyVal k r = v)) =
      data.filter (fun r => decide (keyVal k r = v)) := by
  unfold barFilter
  rw [List.filter_filter]
  apply List.filter_congr
  intro r _
  rcases hv with rfl | rfl
  · by_cases hr : keyVal k r = v <;> simp [hr]
  · by_cases hr : keyVal k r = v <;> simp [hr]

lemma radarStats_eq_aggAll (data : List Row) (b1 b2 b : ℤ) (hb : b = b1 ∨ b = b2) :
    radarStats data b1 b2 b = aggAll (groupTimes data b) := by
  unfold radarStats groupTimes
  rw [radar_group_collapse data b1 b2 b hb]

lemma barStats_eq_group (data : List Row) (k : GroupKey) (v1 v2 v : String ⊕ ℤ)
    (hv : v = v1 ∨ v = v2) :
    barStats data k v1 v2 v =
      { mean := listMean (groupTimesK data k v), var := listSampleVar (groupTimesK data k v) } := by
  unfold barStats groupTimesK
  rw [bar_group_collapse data k v1 v2 v hv]

/-! ### C1: statistics of the batch-comparison aggregation -/

/-- C1 counterexample.  On the spec's own example dataset (batch 7 holding
times 10.0 and 20.0), the batch-comparison aggregation of src/main.py
(pandas `agg(['mean','std',...])`, whose `std` defaults to `ddof=1`) yields
a standard deviation whose square is 50, not the claimed population value
(std 5.0, i.e. squared 25): the claim is false on the code. -/
theorem c1_population_std_counterexample :
    (radarStats exData 7 8 7).mean = some 15 ∧
    (radarStats exData 7 8 7).var = some 50 ∧
    popVarSpec (groupTimes exData 7) = some 25 ∧
    (radarStats exData 7 8 7).var ≠ popVarSpec (groupTimes exData 7) ∧
    (radarStats exData 7 8 7).var ≠ some (5 * 5) := by
  have h1 : (radarStats exData 7 8 7).mean = some 15 := by
    norm_num [radarStats, radarFilter, aggAll, listMean, listSum, exData]
  have h2 : (radarStats exData 7 8 7).var = some 50 := by
    norm_num [radarStats, radarFilter, aggAll, listSampleVar, listMean, listSum, exData]
  have h3 : popVarSpec (groupTimes exData 7) = some 25 := by
    norm_num [popVarSpec, groupTimes, listMean, listSum, exData]
  refine ⟨h1, h2, h3, ?_, ?_⟩
  · rw [h2, h3]; norm_num
  · rw [h2]; norm_num

/-- C1 (amended): for every Dataset and pair of chipBatch values, for each
selected batch with at least one matching row, the batch-comparison
aggregation computes over that group's `sample_loading_time`: the arithmetic
mean (sum over count), the SAMPLE standard deviation — square root of the
sum of squared deviations from the mean divided by count MINUS ONE, and NaN
(`none`) for a one-row group — the minimum, the maximum, and the row count.
For a group with times 10.0 and 20.0 this yields mean 15.0 and standard
deviation √50 ≈ 7.07, not 5.0.  (`var` is the square of the standard
deviation; `none` models NaN.) -/
theorem c1_radar_batch_stats (data : List Row) (b1 b2 b : ℤ) (hb : b = b1 ∨ b = b2)
    (hne : groupTimes data b ≠ []) :
    (radarStats data b1 b2 b).mean =
      some ((groupTimes data b).sum / ((groupTimes data b).length : ℚ)) ∧
    ((groupTimes data b).length = 1 → (radarStats data b1 b2 b).var = none) ∧
    (2 ≤ (groupTimes data b).length →
      (radarStats data b1 b2 b).var =
        some (((groupTimes data b).map (fun x =>
            (x - (groupTimes data b).sum / ((groupTimes data b).length : ℚ)) *
            (x - (groupTimes data b).sum / ((groupTimes data b).length : ℚ)))).sum /
          (((groupTimes data b).length : ℚ) - 1))) ∧
    (∃ m, (radarStats data b1 b2 b).min = some m ∧ m ∈ groupTimes data b ∧
      ∀ x ∈ groupTimes data b, m ≤ x) ∧
    (∃ m, (radarStats data b1 b2 b).max = some m ∧ m ∈ groupTimes data b ∧
      ∀ x ∈ groupTimes data b, x ≤ m) ∧
    (radarStats data b1 b2 b).count = (groupTimes data b).length := by
  rw [radarStats_eq_aggAll data b1 b2 b hb]
  have hemp : (groupTimes data b).isEmpty = false := by
    cases hgb : groupTimes data b with
    | nil => exact absurd hgb hne
    | cons x xs => rfl
  refine ⟨?_, ?_, ?_, ?_, ?_, rfl⟩
  · show listMean (groupTimes data b) = _
    rw [listMean, hemp, listSum_eq_sum]
    rfl
  · intro h1
    show listSampleVar (groupTimes data b) = none
    rw [listSampleVar, listMean, hemp]
    simp [h1]
  · intro h2
    show listSampleVar (groupTimes data b) = _
    rw [listSampleVar, listMean, hemp]
    simp only [Bool.false_eq_true, if_false]
    rw [if_neg (by omega), listSum_eq_sum, listSum_eq_sum]
  · cases hm : listMin (groupTimes data b) with
    | none =>
        rw [listMin_eq_min?, List.min?_eq_none_iff] at hm
        exact absurd hm hne
    | some m =>
        obtain ⟨hmem, hle⟩ := (listMin_char (groupTimes data b) m).mp hm
        exact ⟨m, hm, hmem, hle⟩
  · cases hm : listMax (groupTimes data b) with
    | none =>
        rw [listMax_eq_max?, List.max?_eq_none_iff] at hm
        exact absurd hm hne
    | some m =>
        obtain ⟨hmem, hle⟩ := (listMax_char (groupTimes data b) m).mp hm
        exact ⟨m, hm, hmem, hle⟩

/-- C1 witness: the amended theorem applied to the example dataset,
batches 7 and 8, group 7. -/
theorem c1_radar_batch_stats_witness :
    (radarStats exData 7 8 7).mean =
      some ((groupTimes exData 7).sum / ((groupTimes exData 7).length : ℚ)) ∧
    ((groupTimes exData 7).length = 1 → (radarStats exData 7 8 7).var = none) ∧
    (2 ≤ (groupTimes exData 7).length →
      (radarStats exData 7 8 7).var =
        some (((groupTimes exData 7).map (fun x =>
            (x - (groupTimes exData 7).sum / ((groupTimes exData 7).length : ℚ)) *
            (x - (groupTimes exData 7).sum / ((groupTimes exData 7).length : ℚ)))).sum /
          (((groupTimes exData 7).length : ℚ) - 1))) ∧
    (∃ m, (radarStats exData 7 8 7).min = some m ∧ m ∈ groupTimes exData 7 ∧
      ∀ x ∈ groupTimes exData 7, m ≤ x) ∧
    (∃ m, (radarStats exData 7 8 7).max = some m ∧ m ∈ groupTimes exData 7 ∧
      ∀ x ∈ groupTimes exData 7, x ≤ m) ∧
    (radarStats exData 7 8 7).count = (groupTimes exData 7).length :=
  c1_radar_batch_stats exData 7 8 7 (Or.inl rfl)
    (by simp [groupTimes, exData])

/-! ### C4: single-member groups -/

/-- C4 counterexample.  On the spec's example dataset, batch 8 has exactly
one row (time 30.0); the aggregation's mean is 30.0 as claimed, but its
standard deviation is NaN (pandas `std` with its default `ddof=1` divides
by count−1 = 0), not the claimed 0: the claim is false on the code. -/
theorem c4_singleton_std_counterexample :
    (radarStats exData 7 8 8).mean = some 30 ∧
    (radarStats exData 7 8 8).var = none ∧
    (radarStats exData 7 8 8).var ≠ some 0 := by
  have h1 : (radarStats exData 7 8 8).mean = some 30 := by
    norm_num [radarStats, radarFilter, aggAll, listMean, listSum, exData]
  have h2 : (radarStats exData 7 8 8).var = none := by
    norm_num [radarStats, radarFilter, aggAll, listSampleVar, listMean, listSum, exData]
  exact ⟨h1, h2, by rw [h2]; simp⟩

/-- C4 (amended): for every Dataset and every group consisting of exactly
one row, the Aggregator's mean for that group equals that row's
`sample_loading_time`, and the Aggregator's standard deviation for that
group is NaN (modelled `none`) — not 0 — both in the batch-comparison
(radar) aggregation and in the bar-plot aggregation. -/
theorem c4_singleton_group_stats (data : List Row) :
    (∀ (b1 b2 b : ℤ) (t : ℚ), (b = b1 ∨ b = b2) → groupTimes data b = [t] →
      (radarStats data b1 b2 b).mean = some t ∧ (radarStats data b1 b2 b).var = none) ∧
    (∀ (k : GroupKey) (v1 v2 v : String ⊕ ℤ) (t : ℚ), (v = v1 ∨ v = v2) →
      groupTimesK data k v = [t] →
      (barStats data k v1 v2 v).mean = some t ∧ (barStats data k v1 v2 v).var = none) := by
  have hmean : ∀ t : ℚ, listMean [t] = some t := by
    intro t
    rw [listMean]
    norm_num [listSum]
  have hvar : ∀ t : ℚ, listSampleVar [t] = none := by
    intro t
    rw [listSampleVar, hmean]
    simp
  constructor
  · intro b1 b2 b t hb hone
    rw [radarStats_eq_aggAll data b1 b2 b hb, hone]
    exact ⟨hmean t, hvar t⟩
  · intro k v1 v2 v t hv hone
    rw [barStats_eq_group data k v1 v2 v hv, hone]
    exact ⟨hmean t, hvar t⟩

/-- C4 witness: batch 8 of the example dataset is the one-row group
`[30]`; the amended theorem applied there. -/
theorem c4_singleton_group_stats_witness :
    (radarStats exData 7 8 8).mean = some 30 ∧ (radarStats exData 7 8 8).var = none :=
  (c4_singleton_group_stats exData).1 7 8 8 30 (Or.inr rfl)
    (by simp [groupTimes, exData])

/-! ### C5: order-independence of the aggregation -/

/-- C5 (confirmed): for every Dataset, every grouping field and every pair
of selected group values, the Aggregator's statistics are unchanged under
any permutation of the Dataset's rows — both the batch-comparison (radar)
aggregation (mean/std/min/max/count) and the bar-plot aggregation
(mean/std), for every group. -/
theorem c5_aggregation_perm_invariant (data data' : List Row) (h : data.Perm data') :
    (∀ b1 b2 b : ℤ, radarStats data b1 b2 b = radarStats data' b1 b2 b) ∧
    (∀ (k : GroupKey) (v1 v2 v : String ⊕ ℤ),
      barStats data k v1 v2 v = barStats data' k v1 v2 v) := by
  constructor
  · intro b1 b2 b
    unfold radarStats radarFilter
    exact aggAll_perm (((h.filter _).filter _).map _)
  · intro k v1 v2 v
    unfold barStats barFilter
    have hp := ((h.filter (fun r => decide (keyVal k r = v1 ∨ keyVal k r = v2))).filter
      (fun r => decide (keyVal k r = v))).map (·.sample_loading_time)
    rw [listMean_perm hp, listSampleVar_perm hp]

/-- C5 witness: the radar statistics agree on the example dataset and its
reversal. -/
theorem c5_aggregation_perm_invariant_witness :
    radarStats exData 7 8 7 = radarStats exData.reverse 7 8 7 :=
  (c5_aggregation_perm_invariant exData exData.reverse
    (exData.reverse_perm).symm).1 7 8 7

/-! ### C2: retention and truncation in the Loader/Cleaner -/

/-- C2 (confirmed): a row survives cleaning iff its `chipBatch` is
coercible to a number (rows failing coercion are dropped, never defaulted,
with no error — `cleanRow` is total and returns `none` for them), and every
retained row's `chipBatch` is the coerced value truncated toward zero:
floor for nonnegative values, ceiling for negative ones, so the truncated
integer differs from the coerced value by less than 1 and never exceeds it
in absolute value (discarded, not rounded). -/
theorem c2_clean_retention_trunc (parse : String → Option ℚ) :
    (∀ (rows : List RawRow) (r : Row),
      r ∈ clean parse rows ↔ ∃ raw ∈ rows, cleanRow parse raw = some r) ∧
    (∀ raw : RawRow, parse raw.chipBatch = none → cleanRow parse raw = none) ∧
    (∀ (raw : RawRow) (q : ℚ), parse raw.chipBatch = some q →
      ∃ r : Row, cleanRow parse raw = some r ∧ r.chipBatch = truncQ q ∧
        r.assayID = raw.assayID ∧ r.chipLot = raw.chipLot ∧
        r.sample_loading_time = raw.sample_loading_time) ∧
    (∀ q : ℚ, (0 ≤ q → truncQ q = ⌊q⌋) ∧ (q ≤ 0 → truncQ q = ⌈q⌉) ∧
      |(truncQ q : ℚ)| ≤ |q| ∧ |q - (truncQ q : ℚ)| < 1) := by
  refine ⟨?_, ?_, ?_, ?_⟩
  · intro rows r
    exact List.mem_filterMap
  · intro raw hp
    unfold cleanRow
    rw [hp]
  · intro raw q hp
    refine ⟨{ assayID := raw.assayID, chipLot := raw.chipLot, chipBatch := truncQ q,
              Instrument := String.mk (raw.assayID.data.take 4),
              sample_loading_time := raw.sample_loading_time }, ?_, rfl, rfl, rfl, rfl⟩
    unfold cleanRow
    rw [hp]
  · intro q
    rcases le_or_lt 0 q with hq | hq
    · have ht : truncQ q = ⌊q⌋ := if_pos hq
      have hfl : (0 : ℚ) ≤ (⌊q⌋ : ℚ) := by exact_mod_cast Int.floor_nonneg.mpr hq
      refine ⟨fun _ => ht, ?_, ?_, ?_⟩
      · intro hq0
        have : q = 0 := le_antisymm hq0 hq
        subst this
        rw [ht]
        norm_num
      · rw [ht, abs_of_nonneg hq, abs_of_nonneg hfl]
        exact_mod_cast Int.floor_le q
      · rw [ht, abs_of_nonneg (sub_nonneg.mpr (Int.floor_le q))]
        have := Int.lt_floor_add_one q
        linarith
    · have ht : truncQ q = ⌈q⌉ := if_neg (not_le.mpr hq)
      have hcl : (⌈q⌉ : ℚ) ≤ 0 := by
        have h0 : ⌈q⌉ ≤ (0 : ℤ) := Int.ceil_le.mpr (by exact_mod_cast le_of_lt hq)
        exact_mod_cast h0
      refine ⟨fun hq0 => absurd hq0 (not_le.mpr hq), fun _ => ht, ?_, ?_⟩
      · rw [ht, abs_of_nonpos (le_of_lt hq), abs_of_nonpos hcl]
        have := Int.le_ceil q
        linarith
      · rw [ht, abs_of_nonpos (by linarith [Int.le_ceil q])]
        have := Int.ceil_lt_add_one q
        linarith

/-- C2 witness: a coercion yielding 7.9 retains the row with `chipBatch`
truncated to 7, and the truncation bounds hold at 7.9. -/
theorem c2_clean_retention_trunc_witness :
    (∃ r : Row, cleanRow (fun _ => some (79 / 10))
        { assayID := "AB12-3", chipLot := "L1", chipBatch := "7.9",
          sample_loading_time := 10 } = some r ∧
      r.chipBatch = truncQ (79 / 10) ∧ r.assayID = "AB12-3" ∧ r.chipLot = "L1" ∧
      r.sample_loading_time = 10) ∧
    ((0 : ℚ) ≤ 79 / 10 → truncQ (79 / 10) = ⌊(79 / 10 : ℚ)⌋) ∧
    ((79 / 10 : ℚ) ≤ 0 → truncQ (79 / 10) = ⌈(79 / 10 : ℚ)⌉) ∧
    |((truncQ (79 / 10) : ℤ) : ℚ)| ≤ |(79 / 10 : ℚ)| ∧
    |(79 / 10 : ℚ) - ((truncQ (79 / 10) : ℤ) : ℚ)| < 1 :=
  ⟨(c2_clean_retention_trunc (fun _ => some (79 / 10))).2.2.1
      { assayID := "AB12-3", chipLot := "L1", chipBatch := "7.9",
        sample_loading_time := 10 } (79 / 10) rfl,
    (c2_clean_retention_trunc (fun _ => some (79 / 10))).2.2.2 (79 / 10)⟩

/-! ### C3: derivation of the Instrument field -/

/-- C3 (confirmed): every row of the cleaned Dataset has `Instrument`
equal to the first min(4, length) characters of the string `assayID`
(the embedding already carries `assayID` as a string, mirroring
`astype(str)` on line 18 which makes the derivation independent of the
column's apparent type); when `assayID` is shorter than 4 characters,
`Instrument` is the whole string. -/
theorem c3_instrument_derivation (parse : String → Option ℚ) (rows : List RawRow)
    (r : Row) (h : r ∈ clean parse rows) :
    r.Instrument.data = r.assayID.data.take 4 ∧
    r.Instrument.data.length = min 4 r.assayID.data.length ∧
    (r.assayID.data.length < 4 → r.Instrument = r.assayID) := by
  obtain ⟨raw, hmem, hcr⟩ := List.mem_filterMap.mp h
  unfold cleanRow at hcr
  revert hcr
  cases hp : parse raw.chipBatch with
  | none => intro hcr; exact absurd hcr (by simp)
  | some q =>
      intro hcr
      have hr := Option.some.inj hcr
      subst hr
      refine ⟨rfl, List.length_take 4 _, ?_⟩
      intro hlt
      show String.mk (raw.assayID.data.take 4) = raw.assayID
      rw [List.take_of_length_le (le_of_lt hlt)]

/-- C3 witness: a concrete cleaned row derived from assayID "AB12-3". -/
theorem c3_instrument_derivation_witness :
    ({ assayID := "AB12-3", chipLot := "L1", chipBatch := truncQ 7,
       Instrument := String.mk ("AB12-3".data.take 4),
       sample_loading_time := 10 } : Row).Instrument.data = "AB12-3".data.take 4 ∧
    ({ assayID := "AB12-3", chipLot := "L1", chipBatch := truncQ 7,
       Instrument := String.mk ("AB12-3".data.take 4),
       sample_loading_time := 10 } : Row).Instrument.data.length =
      min 4 "AB12-3".data.length ∧
    ("AB12-3".data.length < 4 →
      ({ assayID := "AB12-3", chipLot := "L1", chipBatch := truncQ 7,
         Instrument := String.mk ("AB12-3".data.take 4),
         sample_loading_time := 10 } : Row).Instrument = "AB12-3") :=
  c3_instrument_derivation (fun _ => some 7)
    [{ assayID := "AB12-3", chipLot := "L1", chipBatch := "7", sample_loading_time := 10 }]
    _ (List.mem_filterMap.mpr ⟨_, List.mem_singleton_self _, rfl⟩)

/-! ### Round-trip lemmas for serialization and re-parsing -/

lemma digitChar_toNat {d : ℕ} (hd : d < 10) : (Nat.digitChar d).toNat = 48 + d := by
  interval_cases d <;> rfl

lemma isDigitChar_digitChar {d : ℕ} (hd : d < 10) :
    isDigitChar (Nat.digitChar d) = true := by
  interval_cases d <;> rfl

lemma natSerial_ne_nil (n : ℕ) : natSerial n ≠ [] := by
  unfold natSerial
  split
  · simp
  · rename_i h
    intro hc
    rw [List.reverse_eq_nil_iff, List.map_eq_nil_iff] at hc
    exact (Nat.digits_ne_nil_iff_ne_zero.mpr h) hc

lemma natSerial_all_digits (n : ℕ) : (natSerial n).all isDigitChar = true := by
  unfold natSerial
  split
  · rfl
  · rw [List.all_eq_true]
    intro c hc
    rw [List.mem_reverse, List.mem_map] at hc
    obtain ⟨d, hd, rfl⟩ := hc
    exact isDigitChar_digitChar (Nat.digits_lt_base (by norm_num) hd)

lemma foldl_digits (ds : List ℕ) (h : ∀ d ∈ ds, d < 10) (a : ℕ) :
    ((ds.map Nat.digitChar).reverse).foldl (fun acc c => acc * 10 + (c.toNat - 48)) a
      = a * 10 ^ ds.length + Nat.ofDigits 10 ds := by
  induction ds generalizing a with
  | nil => simp
  | cons d t ih =>
      have hd : d < 10 := h d (List.mem_cons_self _ _)
      have ht : ∀ x ∈ t, x < 10 := fun x hx => h x (List.mem_cons_of_mem _ hx)
      rw [List.map_cons, List.reverse_cons, List.foldl_append, ih ht]
      show (a * 10 ^ t.length + Nat.ofDigits 10 t) * 10 + ((Nat.digitChar d).toNat - 48)
        = a * 10 ^ (d :: t).length + Nat.ofDigits 10 (d :: t)
      rw [digitChar_toNat hd, Nat.add_sub_cancel_left, Nat.ofDigits_cons, List.length_cons,
        pow_succ]
      ring

lemma digitsVal_natSerial (n : ℕ) : digitsVal (natSerial n) = n := by
  unfold natSerial digitsVal
  split
  · rename_i h; subst h; rfl
  · rw [foldl_digits _ (fun d hd => Nat.digits_lt_base (by norm_num) hd) 0]
    simp [Nat.ofDigits_digits]

lemma parseDigits_natSerial (n : ℕ) : parseDigits (natSerial n) = some n := by
  unfold parseDigits
  rw [if_pos ⟨natSerial_ne_nil n, natSerial_all_digits n⟩, digitsVal_natSerial]

lemma digit_ne_dot {c : Char} (h : isDigitChar c = true) : c ≠ '.' := by
  intro hc; subst hc; exact absurd h (by decide)

lemma dropWhile_natSerial (n : ℕ) :
    (natSerial n).dropWhile (fun c => decide (c ≠ '.')) = [] := by
  rw [List.dropWhile_eq_nil_iff]
  intro c hc
  have hall := natSerial_all_digits n
  rw [List.all_eq_true] at hall
  simp [digit_ne_dot (hall c hc)]

lemma parseDec_natSerial (n : ℕ) : parseDec (natSerial n) = some (n : ℚ) := by
  unfold parseDec
  rw [dropWhile_natSerial, parseDigits_natSerial]
  rfl

lemma toNumeric_mk_natSerial (n : ℕ) :
    toNumeric (String.mk (natSerial n)) = some (n : ℚ) := by
  obtain ⟨c, cs, hcons⟩ : ∃ c cs, natSerial n = c :: cs := by
    cases h : natSerial n with
    | nil => exact absurd h (natSerial_ne_nil n)
    | cons c cs => exact ⟨c, cs, rfl⟩
  have hdig : isDigitChar c = true := by
    have hall := natSerial_all_digits n
    rw [hcons, List.all_cons, Bool.and_eq_true] at hall
    exact hall.1
  have hc : c ≠ '-' := by
    intro hc; subst hc; exact absurd hdig (by decide)
  have hdata : (String.mk (natSerial n)).data = c :: cs := hcons
  unfold toNumeric
  rw [hdata]
  show (if c = '-' then (parseDec cs).map (fun q => -q) else parseDec (c :: cs)) = some (n : ℚ)
  rw [if_neg hc, ← hcons]
  exact parseDec_natSerial n

lemma toNumeric_intSerial (n : ℤ) :
    toNumeric (String.mk (intSerial n)) = some ((n : ℤ) : ℚ) := by
  unfold intSerial
  split
  · rename_i h
    show toNumeric (String.mk ('-' :: natSerial n.natAbs)) = some ((n : ℤ) : ℚ)
    unfold toNumeric
    show (if ('-' : Char) = '-' then (parseDec (natSerial n.natAbs)).map (fun q => -q)
      else parseDec (('-' : Char) :: natSerial n.natAbs)) = some ((n : ℤ) : ℚ)
    rw [if_pos rfl, parseDec_natSerial]
    show some (-(n.natAbs : ℚ)) = some ((n : ℤ) : ℚ)
    congr 1
    rw [Int.cast_natAbs, abs_of_neg h]
    push_cast
    ring
  · rename_i h
    rw [toNumeric_mk_natSerial]
    congr 1
    rw [Int.cast_natAbs]
    exact_mod_cast abs_of_nonneg (not_lt.mp h)

lemma truncQ_intCast (n : ℤ) : truncQ ((n : ℤ) : ℚ) = n := by
  unfold truncQ
  rcases le_or_lt 0 (n : ℚ) with h | h
  · rw [if_pos h, Int.floor_intCast]
  · rw [if_neg (not_le.mpr h), Int.ceil_intCast]

lemma cleanRow_some_shape {parse : String → Option ℚ} {raw : RawRow} {r : Row}
    (h : cleanRow parse raw = some r) :
    ∃ q, parse raw.chipBatch = some q ∧
      r = { assayID := raw.assayID, chipLot := raw.chipLot, chipBatch := truncQ q,
            Instrument := String.mk (raw.assayID.data.take 4),
            sample_loading_time := raw.sample_loading_time } := by
  revert h
  unfold cleanRow
  cases hp : parse raw.chipBatch with
  | none => intro h; exact absurd h (by simp)
  | some q => intro h; exact ⟨q, rfl, (Option.some.inj h).symm⟩

lemma filterMap_self {α : Type} (f : α → Option α) (l : List α)
    (h : ∀ a ∈ l, f a = some a) : l.filterMap f = l := by
  induction l with
  | nil => rfl
  | cons x xs ih =>
      rw [List.filterMap_cons, h x (List.mem_cons_self _ _)]
      show x :: xs.filterMap f = x :: xs
      rw [ih (fun a ha => h a (List.mem_cons_of_mem _ ha))]

lemma cleanRow_serializeRow (r : Row)
    (hI : r.Instrument = String.mk (r.assayID.data.take 4)) :
    cleanRow toNumeric (serializeRow r) = some r := by
  have ht := toNumeric_intSerial r.chipBatch
  unfold cleanRow serializeRow
  dsimp only
  rw [ht]
  dsimp only
  rw [truncQ_intCast, ← hI]

/-! ### C6: idempotence of cleaning under re-serialization -/

/-- C6 (confirmed): re-running the Loader/Cleaner on the re-serialized
cleaned Dataset yields the cleaned Dataset itself — the second pass drops
no rows and changes no field values (every re-serialized `chipBatch`
re-coerces to its own integer value, and the `Instrument` derivation is
stable). -/
theorem c6_clean_roundtrip (rows : List RawRow) :
    clean toNumeric ((clean toNumeric rows).map serializeRow) = clean toNumeric rows := by
  unfold clean
  rw [List.filterMap_map]
  apply filterMap_self
  intro r hr
  obtain ⟨raw, hraw, hcr⟩ := List.mem_filterMap.mp hr
  obtain ⟨q, hq, rfl⟩ := cleanRow_some_shape hcr
  exact cleanRow_serializeRow _ rfl

/-! ### C7: terminal I/O failure leaves no output -/

/-- C7 (confirmed): if the CSV source path or the logo asset path cannot
be opened, the run ends in the terminal I/O error outcome — a single
uncaught exception, never retried within the run — and the output file is
untouched: the file system the failed run leaves behind still holds the
previous run's output, because writing had not yet started. -/
theorem c7_io_failure_no_output (parse : String → Option ℚ)
    (render : List Row → List ℕ → String) (fs : FileSys)
    (h : fs.csvFile = none ∨ fs.logoFile = none) :
    runScript parse render fs = RunOutcome.fileError fs ∧
    (runScript parse render fs).finalFs.outFile = fs.outFile := by
  have he : runScript parse render fs = RunOutcome.fileError fs := by
    unfold runScript
    rcases h with h | h
    · rw [h]
    · cases hc : fs.csvFile with
      | none => rfl
      | some rows => rw [h]
  exact ⟨he, by rw [he]; rfl⟩


/-- C7 witness: a missing CSV file aborts and leaves the previous
run's output in place. -/
theorem c7_io_failure_no_output_witness :
    runScript toNumeric (fun _ _ => "") ⟨none, some [], some "old"⟩ =
      RunOutcome.fileError ⟨none, some [], some "old"⟩ ∧
    (runScript toNumeric (fun _ _ => "") ⟨none, some [], some "old"⟩).finalFs.outFile =
      some "old" :=
  c7_io_failure_no_output toNumeric (fun _ _ => "") ⟨none, some [], some "old"⟩ (Or.inl rfl)

/-! ### C9: aggregation has no side effects -/

/-- C9 (confirmed): computing comparison statistics leaves the Dataset
unchanged — a `create_radar_plot` or `create_bar_plot` call returns the
environment (the module-level frame `df`) exactly as it found it, and the
statistics computed after another call equal the statistics computed
fresh (no interference between calls). -/
theorem c9_aggregation_no_side_effects (env : Env) :
    (∀ b1 b2 : ℤ, (createRadarPlotCall env b1 b2).1 = env) ∧
    (∀ (k : GroupKey) (v1 v2 : String ⊕ ℤ), (createBarPlotCall env k v1 v2).1 = env) ∧
    (∀ (b1 b2 : ℤ) (k : GroupKey) (v1 v2 : String ⊕ ℤ),
      (createRadarPlotCall (createBarPlotCall env k v1 v2).1 b1 b2).2
        = (createRadarPlotCall env b1 b2).2 ∧
      (createBarPlotCall (createRadarPlotCall env b1 b2).1 k v1 v2).2
        = (createBarPlotCall env k v1 v2).2) :=
  ⟨fun _ _ => rfl, fun _ _ _ => rfl, fun _ _ _ _ _ => ⟨rfl, rfl⟩⟩

lemma runScript_some (parse : String → Option ℚ)
    (render : List Row → List ℕ → String) (rows : List RawRow) (logo : List ℕ)
    (out : Option String) :
    runScript parse render ⟨some rows, some logo, out⟩ =
      (match (uniqueBatches (clean parse rows))[0]?,
          (uniqueBatches (clean parse rows))[1]? with
      | some _, some _ =>
          (match (uniqueInstruments (clean parse rows))[0]?,
              (uniqueInstruments (clean parse rows))[1]? with
          | some _, some _ =>
              RunOutcome.ok ⟨some rows, some logo, some (render (clean parse rows) logo)⟩
          | _, _ => RunOutcome.indexError ⟨some rows, some logo, out⟩)
      | _, _ => RunOutcome.indexError ⟨some rows, some logo, out⟩) := rfl

/-! ### C10: fewer than two distinct group values aborts the run -/

/-- C10 (confirmed): with the CSV and logo both readable, if the cleaned
Dataset has fewer than two distinct `chipBatch` values or fewer than two
distinct `Instrument` values, the run aborts with the uncaught
out-of-bounds lookup (indexing entry 0 or 1 of the sorted unique-value
lists) and writes no output; with at least two distinct values in each
field the run completes and writes the report, so that is exactly the
precondition for producing any output. -/
theorem c10_degenerate_uniques_abort (parse : String → Option ℚ)
    (render : List Row → List ℕ → String) (fs : FileSys) (rows : List RawRow)
    (logo : List ℕ) (hcsv : fs.csvFile = some rows) (hlogo : fs.logoFile = some logo) :
    (((clean parse rows).map (·.chipBatch)).dedup.length < 2 ∨
        ((clean parse rows).map (·.Instrument)).dedup.length < 2 →
      runScript parse render fs = RunOutcome.indexError fs ∧
        (runScript parse render fs).finalFs.outFile = fs.outFile) ∧
    (2 ≤ ((clean parse rows).map (·.chipBatch)).dedup.length →
      2 ≤ ((clean parse rows).map (·.Instrument)).dedup.length →
      runScript parse render fs
        = RunOutcome.ok { fs with outFile := some (render (clean parse rows) logo) }) := by
  have hbl : (uniqueBatches (clean parse rows)).length
      = ((clean parse rows).map (·.chipBatch)).dedup.length := by
    unfold uniqueBatches
    exact List.length_mergeSort _
  have hil : (uniqueInstruments (clean parse rows)).length
      = ((clean parse rows).map (·.Instrument)).dedup.length := by
    unfold uniqueInstruments
    exact List.length_mergeSort _
  obtain ⟨cf, lf, out⟩ := fs
  dsimp only at hcsv hlogo
  subst hcsv
  subst hlogo
  constructor
  · intro h
    have he : runScript parse render ⟨some rows, some logo, out⟩
        = RunOutcome.indexError ⟨some rows, some logo, out⟩ := by
      rw [runScript_some]
      rcases h with h | h
      · have h1 : (uniqueBatches (clean parse rows))[1]? = none :=
          List.getElem?_eq_none (by omega)
        rw [h1]
        cases h0 : (uniqueBatches (clean parse rows))[0]? <;> rfl
      · have h1 : (uniqueInstruments (clean parse rows))[1]? = none :=
          List.getElem?_eq_none (by omega)
        cases h0 : (uniqueBatches (clean parse rows))[0]? with
        | none => rfl
        | some b0 =>
            cases hb1 : (uniqueBatches (clean parse rows))[1]? with
            | none => rfl
            | some b1 =>
                rw [h1]
                cases hi0 : (uniqueInstruments (clean parse rows))[0]? <;> rfl
    exact ⟨he, by rw [he]; rfl⟩
  · intro hb hi
    rw [runScript_some,
      List.getElem?_eq_getElem (show 0 < (uniqueBatches (clean parse rows)).length by omega),
      List.getElem?_eq_getElem (show 1 < (uniqueBatches (clean parse rows)).length by omega),
      List.getElem?_eq_getElem
        (show 0 < (uniqueInstruments (clean parse rows)).length by omega),
      List.getElem?_eq_getElem
        (show 1 < (uniqueInstruments (clean parse rows)).length by omega)]

/-- C10 witness: a one-row input (a single batch and single instrument)
aborts with the index error and leaves the previous output untouched. -/
theorem c10_degenerate_uniques_abort_witness :
    runScript (fun _ => some 7) (fun _ _ => "")
        ⟨some [{ assayID := "AB12-3", chipLot := "L1", chipBatch := "7",
                 sample_loading_time := 10 }], some [], some "old"⟩ =
      RunOutcome.indexError
        ⟨some [{ assayID := "AB12-3", chipLot := "L1", chipBatch := "7",
                 sample_loading_time := 10 }], some [], some "old"⟩ ∧
    (runScript (fun _ => some 7) (fun _ _ => "")
        ⟨some [{ assayID := "AB12-3", chipLot := "L1", chipBatch := "7",
                 sample_loading_time := 10 }], some [], some "old"⟩).finalFs.outFile =
      some "old" :=
  (c10_degenerate_uniques_abort (fun _ => some 7) (fun _ _ => "") _
    [{ assayID := "AB12-3", chipLot := "L1", chipBatch := "7", sample_loading_time := 10 }]
    [] rfl rfl).1
    (Or.inl (by simp [clean, cleanRow]))
